import Mathlib

/-
Verification of the operator reference-semantics evaluator
(src/python/akg/utils/op_dsl.py).

The Python source is shallowly embedded: numpy ndarrays become `Tensor`
(a shape together with row-major flat data), Python attribute values
become `PyVal`, fallible numpy calls (reshape with a size mismatch,
scalar indexing out of range, unsupported formats) return `Option`.
Array element values are modelled as exact rationals; floating-point
rounding is not modelled, only exact value flow and dtype bookkeeping.
-/

/-! ## Python attribute values and the attribute accessor -/

/-- A Python attribute value as it appears in an operator description:
an int, a bool, a string, or a list. -/
inductive PyVal where
  | int : Int → PyVal
  | bool : Bool → PyVal
  | str : String → PyVal
  | vlist : List PyVal → PyVal

/-- Python truthiness of a `PyVal` (`if value:`). -/
def PyVal.truthy : PyVal → Bool
  | .int n => n != 0
  | .bool b => b
  | .str s => s != ""
  | .vlist l => !l.isEmpty

/-- One entry of an operator's attribute list: `{"name": ..., "value": ...}`. -/
structure AttrEntry where
  attr_name : String
  value : PyVal

/-- Embedding of `get_attr` (op_dsl.py:23-29): scan the attribute list in
order, return the value of the first entry whose name matches; if none
matches, log a warning (not modelled) and return the empty list `[]`. -/
def get_attr : List AttrEntry → String → PyVal
  | [], _ => PyVal.vlist []
  | a :: rest, t => if a.attr_name = t then a.value else get_attr rest t

/-- A tensor descriptor as consumed by the string-building operators:
`tensor_name`, `data_type`, and an optional inline literal `value`
(modelled by its rendered text, since the source interpolates it with
`%s`). -/
structure TensorDesc where
  tensor_name : String
  data_type : String
  value : Option String
deriving DecidableEq, Inhabited

/-- Embedding of `get_input` (op_dsl.py:32-35): the inline `value` if
present, otherwise the tensor name. -/
def get_input (d : TensorDesc) : String := d.value.getD d.tensor_name

/-! ## The matmul string builder (numeric-precision policy) -/

/-- Embedding of `np_matmul_str` (op_dsl.py:346-376).  Builds the numpy
program text evaluated by the harness: each float16 operand is first
re-bound to its float32 upcast, the product is taken with
`np.swapaxes` applied per transpose flag, and the result is downcast to
float16 exactly when the declared output type is float16. -/
def np_matmul_str (inputs : List (List TensorDesc)) (output : List TensorDesc)
    (attr : List AttrEntry) : String :=
  let trans_a := get_attr attr "transpose_a"
  let trans_b := get_attr attr "transpose_b"
  let input_0 := (inputs.getD 0 []).getD 0 default
  let input_1 := (inputs.getD 1 []).getD 0 default
  let out0 := output.getD 0 default
  let res0 := ""
  let res1 :=
    if input_0.data_type = "float16" then
      res0 ++ (get_input input_0 ++ " = " ++ get_input input_0 ++ ".astype(np.float32)") ++ "\n"
    else res0
  let res2 :=
    if input_1.data_type = "float16" then
      res1 ++ (get_input input_1 ++ " = " ++ get_input input_1 ++ ".astype(np.float32)") ++ "\n"
    else res1
  let res3 :=
    if trans_a.truthy && trans_b.truthy then
      res2 ++ (out0.tensor_name ++ " = np.matmul(np.swapaxes(" ++ get_input input_0 ++
        ", -1, -2), np.swapaxes(" ++ get_input input_1 ++ ", -1, -2))")
    else if trans_a.truthy then
      res2 ++ (out0.tensor_name ++ " = np.matmul(np.swapaxes(" ++ get_input input_0 ++
        ", -1, -2), " ++ get_input input_1 ++ ")")
    else if trans_b.truthy then
      res2 ++ (out0.tensor_name ++ " = np.matmul(" ++ get_input input_0 ++
        ", np.swapaxes(" ++ get_input input_1 ++ ", -1, -2))")
    else
      res2 ++ (out0.tensor_name ++ " = np.matmul(" ++ get_input input_0 ++
        ", " ++ get_input input_1 ++ ")")
  if out0.data_type = "float16" then
    res3 ++ "\n" ++ (out0.tensor_name ++ " = " ++ out0.tensor_name ++ ".astype(np.float16)")
  else res3

/-- The float32 matrix-product statement, with the transpose flags
applied per operand through `np.swapaxes` (the source's rendering of
the spec's "transpose-A, transpose-B independently"). -/
def spec_matmul_line (a b o : String) (ta tb : Bool) : String :=
  if ta && tb then
    o ++ " = np.matmul(np.swapaxes(" ++ a ++ ", -1, -2), np.swapaxes(" ++ b ++ ", -1, -2))"
  else if ta then
    o ++ " = np.matmul(np.swapaxes(" ++ a ++ ", -1, -2), " ++ b ++ ")"
  else if tb then
    o ++ " = np.matmul(" ++ a ++ ", np.swapaxes(" ++ b ++ ", -1, -2))"
  else
    o ++ " = np.matmul(" ++ a ++ ", " ++ b ++ ")"

/-- Modelled from the spec: the program the float16 matmul policy
prescribes — upcast both operands to float32, take the product in
float32, and downcast the result to float16 exactly when the declared
output type is float16 (no downcast otherwise). -/
def spec_fp16_matmul_program (a b o : String) (ta tb : Bool) (out_dtype : String) : String :=
  a ++ " = " ++ a ++ ".astype(np.float32)" ++ "\n" ++
  b ++ " = " ++ b ++ ".astype(np.float32)" ++ "\n" ++
  spec_matmul_line a b o ta tb ++
  (if out_dtype = "float16" then "\n" ++ (o ++ " = " ++ o ++ ".astype(np.float16)") else "")

/-! ## Tensors: numpy ndarrays as shape + row-major flat data -/

/-- A numpy ndarray: a shape, a dtype tag, and the elements in row-major
(C) order.  Element values are exact (rationals for numeric arrays,
integers for index arrays); floating-point rounding is not modelled. -/
structure Tensor (α : Type) where
  shape : List Nat
  dtype : String
  data : List α
deriving DecidableEq

/-- `np.prod` of a shape (`np.prod([]) = 1`). -/
def listProd (l : List Nat) : Nat := l.foldl (· * ·) 1

/-- All multi-indices of a shape, in row-major order. -/
def allIdx : List Nat → List (List Nat)
  | [] => [[]]
  | d :: ds => (List.range d).flatMap (fun i => (allIdx ds).map (fun r => i :: r))

/-- Row-major flat offset of a multi-index. -/
def flatIdx : List Nat → List Nat → Nat
  | _ :: ds, i :: is => i * listProd ds + flatIdx ds is
  | _, _ => 0

/-- Element at a multi-index (out-of-range reads give 0; the embedded
code only reads in range on the paths the theorems traverse). -/
def Tensor.atIdx {α : Type} [Zero α] (t : Tensor α) (idx : List Nat) : α :=
  t.data.getD (flatIdx t.shape idx) 0

/-- `np.reshape`: succeeds exactly when the element count matches. -/
def Tensor.reshape? {α : Type} (t : Tensor α) (s : List Nat) : Option (Tensor α) :=
  if listProd s = t.data.length then some { shape := s, dtype := t.dtype, data := t.data }
  else none

/-- The source multi-index that position `p` of a transposed array reads:
`result[idx] = src[j]` with `j[axes[k]] = idx[k]`. -/
def permuteIdxBack (axes idx : List Nat) (rank : Nat) : List Nat :=
  (List.range rank).map (fun p => idx.getD (axes.indexOf p) 0)

/-- `np.transpose` with an explicit axis permutation. -/
def Tensor.transposeAx {α : Type} [Zero α] (t : Tensor α) (axes : List Nat) : Tensor α :=
  let newShape := axes.map (fun k => t.shape.getD k 0)
  { shape := newShape, dtype := t.dtype,
    data := (allIdx newShape).map (fun idx =>
      t.atIdx (permuteIdxBack axes idx t.shape.length)) }

/-- Basic slice `[:stop]` along one axis (numpy clamps the bound). -/
def Tensor.sliceTo {α : Type} [Zero α] (t : Tensor α) (ax stop : Nat) : Tensor α :=
  let newShape := t.shape.set ax (min stop (t.shape.getD ax 0))
  { shape := newShape, dtype := t.dtype,
    data := (allIdx newShape).map (fun idx => t.atIdx idx) }

/-- Scalar index along one axis (removes the axis; out of range raises
`IndexError` in numpy, modelled as `none`). -/
def Tensor.indexAt {α : Type} [Zero α] (t : Tensor α) (ax i : Nat) : Option (Tensor α) :=
  if i < t.shape.getD ax 0 then
    let newShape := t.shape.take ax ++ t.shape.drop (ax + 1)
    some { shape := newShape, dtype := t.dtype,
           data := (allIdx newShape).map (fun idx =>
             t.atIdx (idx.take ax ++ i :: idx.drop ax)) }
  else none

/-! ## The layout converter (dense ↔ FRACTAL_NZ) -/

/-- Embedding of `trans_data_two2fractal` (op_dsl.py:254-290): pad the
trailing two dims up to multiples of 16 with zero fill (the block
assignment is written for ranks 2/3/4 only; other ranks leave the
padded buffer all zero, as in the source), reshape the trailing dims to
`[m1, 16, n1, 16]`, and permute with `[2, 0, 1, 3]` (shifted past the
batch dims).  Unsupported formats raise, modelled as `none`; a rank
below 2 would make `shape[-2]` raise, also `none`. -/
def trans_data_two2fractal (input_ : Tensor ℚ) (src_format dst_format : String) :
    Option (Tensor ℚ) :=
  let shape := input_.shape
  let dtype := input_.dtype
  if src_format = "DefaultFormat" ∨ src_format = "NCHW" then
    if shape.length < 2 then none
    else if dst_format = "FRACTAL_NZ" then
      let m := shape.getD (shape.length - 2) 0
      let n := shape.getD (shape.length - 1) 0
      let need_pad := m % 16 ≠ 0 ∨ n % 16 ≠ 0
      let pad_m := (m + 15) / 16 * 16
      let pad_n := (n + 15) / 16 * 16
      let m1 := if need_pad then pad_m / 16 else m / 16
      let n1 := if need_pad then pad_n / 16 else n / 16
      let pad_shape := shape.take (shape.length - 2) ++ [pad_m, pad_n]
      let pad_input : Tensor ℚ :=
        { shape := pad_shape, dtype := dtype,
          data := (allIdx pad_shape).map (fun idx =>
            if (shape.length = 2 ∨ shape.length = 3 ∨ shape.length = 4) ∧
               idx.getD (shape.length - 2) 0 < m ∧ idx.getD (shape.length - 1) 0 < n
            then input_.atIdx idx else 0) }
      let reshape_shape := shape.take (shape.length - 2) ++ [m1, 16, n1, 16]
      let reshaped? := if need_pad then pad_input.reshape? reshape_shape
                       else input_.reshape? reshape_shape
      let transpose_axis := List.range (shape.length - 2) ++
        ([2, 0, 1, 3].map (fun x => x + shape.length - 2))
      reshaped?.map (fun r => r.transposeAx transpose_axis)
    else none
  else none

/-- Embedding of `trans_data_fractal2two` (op_dsl.py:293-310): inverse
permutation `[1, 2, 0, 3]`, reshape to `[m1*m0, n1*n0]` behind the
batch dims, then — when the reshaped shape differs from the requested
origin shape — crop.  The crop is copied verbatim from the source,
including the scalar indices `bench_mark[:, shape_origin[0],
:shape_origin[1]]` used in the rank-3 and rank-4 cases. -/
def trans_data_fractal2two (input_ : Tensor ℚ) (shape_origin : List Nat) :
    Option (Tensor ℚ) :=
  let shape := input_.shape
  if shape.length < 4 then none
  else
    let n1 := shape.getD (shape.length - 4) 0
    let m1 := shape.getD (shape.length - 3) 0
    let m0 := shape.getD (shape.length - 2) 0
    let n0 := shape.getD (shape.length - 1) 0
    let new_shape := shape.take (shape.length - 4) ++ [m1 * m0, n1 * n0]
    let transpose_axis := List.range (shape.length - 4) ++
      ([1, 2, 0, 3].map (fun x => x + (shape.length - 4)))
    ((input_.transposeAx transpose_axis).reshape? new_shape).bind (fun bench =>
      if new_shape = shape_origin then some bench
      else if shape_origin.length = 2 then
        some ((bench.sliceTo 0 (shape_origin.getD 0 0)).sliceTo 1 (shape_origin.getD 1 0))
      else if shape_origin.length = 3 then
        (bench.sliceTo 2 (shape_origin.getD 1 0)).indexAt 1 (shape_origin.getD 0 0)
      else if shape_origin.length = 4 then
        (bench.sliceTo 3 (shape_origin.getD 1 0)).indexAt 2 (shape_origin.getD 0 0)
      else some bench)

/-! ## Index scatter/gather kernels -/

/-- Python `int(a / b)`: exact division then truncation toward zero (the
divisions reached by the embedded kernels are of machine-small
integers, where the float round trip is exact). -/
def pydiv (a b : Int) : Int := a.tdiv b

/-- `data.strides[k] / data.itemsize` for a C-contiguous ndarray: the
element count skipped by one step along axis `k`. -/
def strideElems (shape : List Nat) (k : Nat) : Nat := listProd (shape.drop (k + 1))

/-- Embedding of `gather_nd_np` (op_dsl.py:38-62).  The output buffer is
allocated as float32 zeros of shape `indices.shape[:-1] ++
data.shape[K:]` (`K = indices.shape[-1]`) and viewed as `numRows ×
colCount`.  For each index row the write offset accumulates
`temp_idx * stride_k` and is divided by `colCount` after EVERY
component (as in the source); a row whose components are not all within
`[0, data.shape[k])` is left zero.  Degenerate reshapes that raise in
numpy (`K = 0` or zero-size `-1` inference) give `none`; out-of-range
buffer reads (unreachable on in-bounds rows with `K` equal to the data
rank) are modelled with default 0. -/
def gather_nd_np (data : Tensor ℚ) (indices : Tensor Int) : Option (Tensor ℚ) :=
  let data_shape := data.shape
  let indices_shape := indices.shape
  let K := indices_shape.getLastD 0
  if K = 0 then none
  else
    let numRows := listProd indices_shape / K
    let left_shape := indices_shape.dropLast
    let right_shape := data_shape.drop K
    let out_shape := left_shape ++ right_shape
    if numRows = 0 then none
    else
      let colCount := listProd out_shape / numRows
      if colCount = 0 then none
      else
        let outInit := List.replicate (numRows * colCount) (0 : ℚ)
        let outData := (List.range numRows).foldl (fun acc i =>
          (List.range colCount).foldl (fun acc2 j =>
            let r := (List.range K).foldl (fun (p : Bool × Int) k =>
              let t := indices.data.getD (i * K + k) 0
              (p.1 && decide ((0 : Int) ≤ t) && decide (t < (data_shape.getD k 0 : Int)),
               pydiv (p.2 + t * ((strideElems data_shape k : Nat) : Int)) (colCount : Int)))
              (true, 0)
            if r.1 then
              acc2.set (i * colCount + j) (data.data.getD (r.2.toNat * colCount + j) 0)
            else acc2) acc) outInit
        some ⟨out_shape, "float32", outData⟩

/-- Embedding of `tensor_scatter_add_np` (op_dsl.py:65-91).  The output
starts as a deep copy of `data` viewed as `… × rowLen` and each
in-bounds index row ADDS its update row into the target row (the same
per-component offset division as the gather).  The inner component loop
always runs over `indices.shape[-1]`, so 1-D `indices` of length > 1
index past the `reshape(-1, 1)` rows and raise IndexError in the
source: modelled as `none`. -/
def tensor_scatter_add_np (data : Tensor ℚ) (indices : Tensor Int) (updates : Tensor ℚ) :
    Option (Tensor ℚ) :=
  let data_shape := data.shape
  let indices_shape := indices.shape
  let K := indices_shape.getLastD 0
  if indices_shape.length ≤ 1 ∧ K ≠ 1 then none
  else if K = 0 then none
  else
    let newRows := if 1 < indices_shape.length then listProd indices_shape / K
                   else listProd indices_shape
    if newRows = 0 then none
    else
      let rowLen := if 1 < indices_shape.length then listProd (data_shape.drop K)
                    else listProd (data_shape.drop 1)
      if rowLen = 0 then none
      else
        let updCols := updates.data.length / newRows
        let outData := (List.range newRows).foldl (fun acc i =>
          (List.range rowLen).foldl (fun acc2 j =>
            let r := (List.range K).foldl (fun (p : Bool × Int) k =>
              let t := indices.data.getD (i * K + k) 0
              (p.1 && decide ((0 : Int) ≤ t) && decide (t < (data_shape.getD k 0 : Int)),
               pydiv (p.2 + t * ((strideElems data_shape k : Nat) : Int)) (rowLen : Int)))
              (true, 0)
            if r.1 then
              acc2.set (r.2.toNat * rowLen + j)
                (updates.data.getD (i * updCols + j) 0 + acc2.getD (r.2.toNat * rowLen + j) 0)
            else acc2) acc) data.data
        some ⟨data_shape, data.dtype, outData⟩

/-! ## The sparse (CSR) reduce-sum -/

/-- Semantics of `scipy.sparse.csr_matrix((vals, indices, indptr),
(m, n)).toarray()` (external library, modelled by its documented
behaviour): entry (i, j) is the sum of the stored values `vals[k]` with
`indptr[i] ≤ k < indptr[i+1]` and `indices[k] = j` (duplicate entries
are summed on densification). -/
def csrDense (indptr indices : List Nat) (vals : List ℚ) (m n : Nat) : Tensor ℚ :=
  ⟨[m, n], "float64",
   (List.range m).flatMap (fun i => (List.range n).map (fun j =>
     (((List.range vals.length).filter (fun k =>
         decide (indptr.getD i 0 ≤ k) && decide (k < indptr.getD (i + 1) 0) &&
         decide (indices.getD k 0 = j))).map (fun k => vals.getD k 0)).sum))⟩

/-- Semantics of `np.array(scipy_csr.sum(axis))` for axis 0/1 (external
library, modelled by its documented behaviour): the dense sum as a
rank-2 matrix, shape `(1, n)` for axis 0 and `(m, 1)` for axis 1. -/
def scipy_csr_sum (indptr indices : List Nat) (vals : List ℚ) (m n : Nat) (axis : Nat) :
    Tensor ℚ :=
  let dense := csrDense indptr indices vals m n
  if axis = 1 then
    ⟨[m, 1], "float64",
     (List.range m).map (fun i => ((List.range n).map (fun j => dense.atIdx [i, j])).sum)⟩
  else
    ⟨[1, n], "float64",
     (List.range n).map (fun j => ((List.range m).map (fun i => dense.atIdx [i, j])).sum)⟩

/-- `np.stack(ts, 0)` (all elements share the head's shape). -/
def stack0 (ts : List (Tensor ℚ)) : Tensor ℚ :=
  { shape := ts.length :: ((ts.head?).map Tensor.shape).getD [],
    dtype := ((ts.head?).map Tensor.dtype).getD "float64",
    data := ts.flatMap Tensor.data }

/-- `np.moveaxis(t, -1, 0)`. -/
def Tensor.moveaxisLast0 (t : Tensor ℚ) : Tensor ℚ :=
  t.transposeAx ((t.shape.length - 1) :: List.range (t.shape.length - 1))

/-- `toarray(csr).sum(axis=1)` of a rank-2 dense array (the spec's
comparison point): a rank-1 array of the row sums, shape `(m,)`. -/
def npDenseSum1 (t : Tensor ℚ) : Tensor ℚ :=
  let m := t.shape.getD 0 0
  let n := t.shape.getD 1 0
  ⟨[m], t.dtype,
   (List.range m).map (fun i => ((List.range n).map (fun j => t.atIdx [i, j])).sum)⟩

/-- Embedding of `csr_reduce_sum_np` (op_dsl.py:116-127): normalise
`axis % len(shape)`, view `data` as `(data.shape[0], -1)` (one column
per trailing batch channel; a zero-size `-1` inference raises, so
`none`), per column build the CSR matrix and take `sum(axis)` (an axis
beyond 1 raises inside scipy: `none`), stack the per-column results,
reshape to `shape[2:] + [shape[1-axis]]`, move the last axis to the
front, and reshape to `[shape[0], 1] + shape[2:]`. -/
def csr_reduce_sum_np (indptr indices : List Nat) (data : Tensor ℚ) (shape : List Nat)
    (axis : Int) : Option (Tensor ℚ) :=
  let m := shape.getD 0 0
  let ax := (axis % (shape.length : Int)).toNat
  if 1 < ax then none
  else if data.data.length = 0 then none
  else
    let d0 := data.shape.getD 0 0
    let xCols := data.data.length / d0
    let expect := (List.range xCols).map (fun i =>
      scipy_csr_sum indptr indices
        ((List.range d0).map (fun k => data.data.getD (k * xCols + i) 0))
        m (shape.getD 1 0) ax)
    ((stack0 expect).reshape? (shape.drop 2 ++ [shape.getD (1 - ax) 0])).bind (fun t1 =>
      (t1.moveaxisLast0).reshape? ([m, 1] ++ shape.drop 2))

/-! ## Store-level kernels (heap model for the frame claim)

The two index kernels are re-run here against an explicit heap, so that
the Python-level mutation structure is visible: `deepcopy`/`np.zeros`
allocate fresh cells, the loops write through `out[...] = ...` into the
fresh cell, and the argument arrays are only ever read.  (The source's
error paths raise before any write and so cannot mutate arguments
either; they are not modelled here, where only write placement
matters.) -/

/-- A heap of ndarray payloads: cell `r` holds the flat element list of
the array at reference `r`. -/
abbrev Store : Type := List (List ℚ)

/-- Read a heap cell. -/
def getCell (s : Store) (r : Nat) : List ℚ := s.getD r []

/-- Write one element of a heap cell (an `arr[flat] = v` store). -/
def setElemAt (s : Store) (r idx : Nat) (v : ℚ) : Store :=
  s.set r ((getCell s r).set idx v)

/-- A bound ndarray: heap cell reference plus shape/dtype metadata. -/
structure NdRef where
  ref : Nat
  shape : List Nat
  dtype : String

/-- Python `int(x)` on a rational: truncation toward zero (identity on
the integral values held by index cells). -/
def pytrunc (x : ℚ) : Int := if x < 0 then ⌈x⌉ else ⌊x⌋

/-- Store-level `tensor_scatter_add_np` (op_dsl.py:65-91): `out =
deepcopy(data)` allocates a fresh cell copying the data payload, the
accumulation loop reads `indices`/`updates`/`out` and writes only
`out`; the result references the fresh cell. -/
def tensor_scatter_add_store (s : Store) (data indices updates : NdRef) : Store × NdRef :=
  let dsh := data.shape
  let ish := indices.shape
  let K := ish.getLastD 0
  let newRows := if 1 < ish.length then listProd ish / K else listProd ish
  let rowLen := if 1 < ish.length then listProd (dsh.drop K) else listProd (dsh.drop 1)
  let updCols := (getCell s updates.ref).length / newRows
  let outRef := s.length
  let s1 := s ++ [getCell s data.ref]
  let s2 := (List.range newRows).foldl (fun st i =>
    (List.range rowLen).foldl (fun st2 j =>
      let r := (List.range K).foldl (fun (p : Bool × Int) k =>
        let t := pytrunc ((getCell st2 indices.ref).getD (i * K + k) 0)
        (p.1 && decide ((0 : Int) ≤ t) && decide (t < (dsh.getD k 0 : Int)),
         pydiv (p.2 + t * ((strideElems dsh k : Nat) : Int)) (rowLen : Int)))
        (true, 0)
      if r.1 then
        setElemAt st2 outRef (r.2.toNat * rowLen + j)
          ((getCell st2 updates.ref).getD (i * updCols + j) 0 +
           (getCell st2 outRef).getD (r.2.toNat * rowLen + j) 0)
      else st2) st) s1
  (s2, ⟨outRef, dsh, data.dtype⟩)

/-- Store-level `gather_nd_np` (op_dsl.py:38-62): `out = np.zeros(...)`
and `new_data = deepcopy(data)` allocate fresh cells (in that order),
the loop reads `indices` and the data copy and writes only `out`. -/
def gather_nd_store (s : Store) (data indices : NdRef) : Store × NdRef :=
  let dsh := data.shape
  let ish := indices.shape
  let K := ish.getLastD 0
  let numRows := listProd ish / K
  let outShape := ish.dropLast ++ dsh.drop K
  let colCount := listProd outShape / numRows
  let outRef := s.length
  let s1 := s ++ [List.replicate (numRows * colCount) (0 : ℚ)]
  let copyRef := s1.length
  let s2 := s1 ++ [getCell s data.ref]
  let s3 := (List.range numRows).foldl (fun st i =>
    (List.range colCount).foldl (fun st2 j =>
      let r := (List.range K).foldl (fun (p : Bool × Int) k =>
        let t := pytrunc ((getCell st2 indices.ref).getD (i * K + k) 0)
        (p.1 && decide ((0 : Int) ≤ t) && decide (t < (dsh.getD k 0 : Int)),
         pydiv (p.2 + t * ((strideElems dsh k : Nat) : Int)) (colCount : Int)))
        (true, 0)
      if r.1 then
        setElemAt st2 outRef (i * colCount + j)
          ((getCell st2 copyRef).getD (r.2.toNat * colCount + j) 0)
      else st2) st) s2
  (s3, ⟨outRef, outShape, "float32"⟩)

/-! ## The mask-resolving strided-slice engine -/

/-- A resolved `start:stop:step` composite index for one axis. -/
structure SliceTriple where
  start : Int
  stop : Int
  step : Int
deriving DecidableEq

/-- Embedding of the per-axis resolution of `strided_slice_str`
(op_dsl.py:402-434) for axis `i`.  `bin(mask)[-1:1:-1]` indexed at `i`
is bit `i` of the mask.  The source re-assigns `strides_num` in the
`else` branch of each mask test, so the `else` branches of the
new-axis-mask and shrink-axis-mask tests overwrite the `strides_num = 1`
set by the ellipsis-mask (and new-axis-mask) branches with the declared
`strides[i]`; the embedding reproduces those overwrites literally. -/
def resolveAxis (shape begin_ end_ strides : List Int)
    (begin_mask end_mask ellipsis_mask new_axis_mask shrink_axis_mask : Nat)
    (i : Nat) : SliceTriple :=
  let strideI := strides.getD i 0
  let start1 : Int :=
    if begin_mask.testBit i then (if 0 ≤ strideI then 0 else -1) else begin_.getD i 0
  let end1 : Int :=
    if end_mask.testBit i then (if 0 ≤ strideI then shape.getD i 0 else -(shape.getD i 0) - 1)
    else end_.getD i 0
  let start2 := if ellipsis_mask.testBit i then 0 else start1
  let end2 := if ellipsis_mask.testBit i then shape.getD i 0 else end1
  let start3 := if new_axis_mask.testBit i then 0 else start2
  let end3 := if new_axis_mask.testBit i then shape.getD i 0 else end2
  let end4 := if shrink_axis_mask.testBit i then start3 + 1 else end3
  let stride4 : Int := if shrink_axis_mask.testBit i then 1 else strideI
  { start := start3, stop := end4, step := stride4 }

/-- The resolved per-axis slices of `strided_slice_str`: one
`start:stop:step` triple per declared axis (the string built by the
source is exactly these triples joined with commas; the new-axis /
shrink-axis post-steps are not needed by the claims below). -/
def strided_slice_resolve (shape begin_ end_ strides : List Int)
    (begin_mask end_mask ellipsis_mask new_axis_mask shrink_axis_mask : Nat) :
    List SliceTriple :=
  (List.range begin_.length).map
    (resolveAxis shape begin_ end_ strides begin_mask end_mask ellipsis_mask
      new_axis_mask shrink_axis_mask)

/-- The positions selected by numpy basic slicing `start:stop:step` on an
axis of length `len`, for a positive step (a negative step is never
reached by the theorems below and yields `[]` here). -/
def sliceIdx (len : Nat) (t : SliceTriple) : List Nat :=
  if t.step ≤ 0 then []
  else
    let st := t.step.toNat
    let lo := min (if t.start < 0 then ((len : Int) + t.start).toNat else t.start.toNat) len
    let hi := min (if t.stop < 0 then ((len : Int) + t.stop).toNat else t.stop.toNat) len
    (List.range len).filter
      (fun k => decide (lo ≤ k) && decide ((k - lo) % st = 0) && decide (k < hi))

/-! ## Theorems for claims C5 and C8 -/

set_option maxRecDepth 8000 in
/-- C5: for every matmul evaluation whose two operands are declared
float16 — any attribute list, hence any combination of transpose flags,
and any declared output type — the generated reference program upcasts
both operands to float32, takes the product in float32, and downcasts
the result to float16 exactly when the declared output type is
float16. -/
theorem matmul_fp16_policy (a b o dt : String) (attr : List AttrEntry) (ta tb : Bool)
    (hta : (get_attr attr "transpose_a").truthy = ta)
    (htb : (get_attr attr "transpose_b").truthy = tb) :
    np_matmul_str [[⟨a, "float16", none⟩], [⟨b, "float16", none⟩]] [⟨o, dt, none⟩] attr
      = spec_fp16_matmul_program a b o ta tb dt := by
  by_cases hdt : dt = "float16" <;> cases ta <;> cases tb <;>
    simp [np_matmul_str, get_input, spec_fp16_matmul_program, spec_matmul_line, hta, htb,
      hdt, String.empty_append, String.append_empty, String.append_assoc,
      -String.reduceAppend]

/-- Witness for C5 at concrete tensor names and transpose flags
(false, true), with a float16 declared output. -/
theorem matmul_fp16_policy_witness :
    np_matmul_str [[⟨"A", "float16", none⟩], [⟨"B", "float16", none⟩]]
        [⟨"C", "float16", none⟩]
        [⟨"transpose_a", PyVal.bool false⟩, ⟨"transpose_b", PyVal.bool true⟩]
      = spec_fp16_matmul_program "A" "B" "C" false true "float16" :=
  matmul_fp16_policy "A" "B" "C" "float16"
    [⟨"transpose_a", PyVal.bool false⟩, ⟨"transpose_b", PyVal.bool true⟩] false true
    (by decide) (by decide)

set_option maxRecDepth 10000 in
/-- C1: the dense → FRACTAL_NZ → dense round trip does not restore every
2-D/3-D/4-D array.  For the 3-D array `A` of shape `(1,1,1)` holding
`5`, padding reaches `(1,16,16)` but the inverse conversion's crop
`bench_mark[:, shape_origin[0], :shape_origin[1]]` scalar-indexes row
`1` of the wrong axes, returning the rank-2 zero array of shape `(1,1)`
instead of `A`. -/
theorem trans_data_roundtrip_3d_fails :
    ((trans_data_two2fractal ⟨[1, 1, 1], "float32", [5]⟩ "DefaultFormat" "FRACTAL_NZ").bind
      (fun f => trans_data_fractal2two f [1, 1, 1]))
      = some ⟨[1, 1], "float32", [0]⟩ ∧
    (some (⟨[1, 1], "float32", [0]⟩ : Tensor ℚ) ≠
      some (⟨[1, 1, 1], "float32", [5]⟩ : Tensor ℚ)) := by
  constructor
  · decide
  · decide

theorem map_range_getD {α : Type} (n : Nat) (f : Nat → α) (i : Nat) (d : α) (h : i < n) :
    ((List.range n).map f).getD i d = f i := by
  rw [List.getD_eq_getElem?_getD]
  simp [List.getElem?_range, h]

theorem sliceIdx_full (len : Nat) : sliceIdx len ⟨0, (len : Int), 1⟩ = List.range len := by
  have hl : ¬ ((len : Int) < 0) := Int.not_lt.mpr (Int.ofNat_nonneg len)
  have h1 : ¬ ((1 : Int) ≤ 0) := by decide
  simp only [sliceIdx, h1, if_false, hl]
  rw [List.filter_eq_self.mpr]
  intro k hk
  have hlt := List.mem_range.mp hk
  simp [hlt, Nat.mod_one]

/-- C3: the ellipsis-mask bit forces start 0 and end = full axis length,
but the declared stride is NOT overridden to 1: the `else` branches of
the subsequent mask tests re-assign `strides_num = strides[i]`,
contradicting the source's own comment "do not change on this axis".
With shape [4], begin [1], end [3], strides [2], ellipsis_mask 1, the
resolved slice is `0:4:2` (selecting positions 0 and 2), not the
pass-through `0:4:1`. -/
theorem ellipsis_mask_stride_not_overridden :
    strided_slice_resolve [4] [1] [3] [2] 0 0 1 0 0 = [⟨0, 4, 2⟩] ∧
    sliceIdx 4 ⟨0, 4, 2⟩ = [0, 2] ∧ ((⟨0, 4, 2⟩ : SliceTriple) ≠ ⟨0, 4, 1⟩) := by
  refine ⟨by decide, by decide, by decide⟩

/-- C7 counterexample: with begin-mask and end-mask both set and declared
stride 2 (positive) on shape [4], the resolved slice is `0:4:2`, which
selects positions 0 and 2 only — the axis is not passed through
unchanged, refuting the claim as stated. -/
theorem begin_end_mask_stride2_counterexample :
    strided_slice_resolve [4] [1] [2] [2] 1 1 0 0 0 = [⟨0, 4, 2⟩] ∧
    sliceIdx 4 ⟨0, 4, 2⟩ = [0, 2] ∧ sliceIdx 4 ⟨0, 4, 2⟩ ≠ List.range 4 := by
  refine ⟨by decide, by decide, by decide⟩

/-- C7 (amended): for an axis whose begin-mask and end-mask bits are set,
whose new-axis and shrink-axis bits are clear, and whose declared
stride is positive, the resolved slice is `0 : full length : declared
stride`; the axis is passed through unchanged exactly in the stride-1
case, where the slice selects every position of the axis in order. -/
theorem begin_end_mask_full_range (shape begin_ end_ strides : List Int)
    (bm em elm nam sam : Nat) (i : Nat)
    (hb : bm.testBit i) (he : em.testBit i)
    (hn : nam.testBit i = false) (hs : sam.testBit i = false)
    (hst : 0 < strides.getD i 0) (hi : i < begin_.length) :
    (strided_slice_resolve shape begin_ end_ strides bm em elm nam sam).getD i ⟨0, 0, 0⟩
      = ⟨0, shape.getD i 0, strides.getD i 0⟩ ∧
    (strides.getD i 0 = 1 → ∀ len : Nat, shape.getD i 0 = (len : Int) →
      sliceIdx len
        ((strided_slice_resolve shape begin_ end_ strides bm em elm nam sam).getD i ⟨0, 0, 0⟩)
        = List.range len) := by
  have hres : (strided_slice_resolve shape begin_ end_ strides bm em elm nam sam).getD i
      ⟨0, 0, 0⟩ = resolveAxis shape begin_ end_ strides bm em elm nam sam i := by
    unfold strided_slice_resolve
    exact map_range_getD _ _ _ _ hi
  have hval : resolveAxis shape begin_ end_ strides bm em elm nam sam i
      = ⟨0, shape.getD i 0, strides.getD i 0⟩ := by
    have hge : (0 : Int) ≤ strides[i]?.getD 0 := by
      simpa [List.getD_eq_getElem?_getD] using hst.le
    have hnlt : ¬ (strides[i]?.getD 0 < 0) := Int.not_lt.mpr hge
    unfold resolveAxis
    simp [hb, he, hn, hs, hge, hnlt, List.getD_eq_getElem?_getD]
  refine ⟨hres.trans hval, ?_⟩
  intro h1 len hlen
  rw [hres, hval, h1, hlen]
  exact sliceIdx_full len

/-- Witness for C7 (amended) at shape [4], begin [9], end [9], strides
[1], begin_mask = end_mask = 1. -/
theorem begin_end_mask_full_range_witness :
    (strided_slice_resolve [4] [9] [9] [1] 1 1 0 0 0).getD 0 ⟨0, 0, 0⟩ = ⟨0, 4, 1⟩ ∧
    sliceIdx 4 ((strided_slice_resolve [4] [9] [9] [1] 1 1 0 0 0).getD 0 ⟨0, 0, 0⟩)
      = List.range 4 := by
  have h := begin_end_mask_full_range [4] [9] [9] [1] 1 1 0 0 0 0
    (by decide) (by decide) (by decide) (by decide) (by decide) (by decide)
  exact ⟨h.1, h.2 (by decide) 4 (by decide)⟩

/-- C2: the out-of-bounds half of the claim holds (a tuple with any
component out of range leaves its output row zero), but the in-bounds
half fails: with data of shape (2,2,2) holding 0..7 and the in-bounds
index tuple (1,1), the per-component division of the write offset by
`out.shape[1]` lands on row 2 of the flattened data — `data[1,0] =
[4,5]` — instead of `data[1,1] = [6,7]`. -/
theorem gather_nd_inbounds_wrong_row :
    gather_nd_np ⟨[2, 2, 2], "float32", [0, 1, 2, 3, 4, 5, 6, 7]⟩ ⟨[1, 2], "int32", [1, 1]⟩
      = some ⟨[1, 2], "float32", [4, 5]⟩ ∧
    ((⟨[2, 2, 2], "float32", [0, 1, 2, 3, 4, 5, 6, 7]⟩ : Tensor ℚ).atIdx [1, 1, 0] = 6 ∧
     (⟨[2, 2, 2], "float32", [0, 1, 2, 3, 4, 5, 6, 7]⟩ : Tensor ℚ).atIdx [1, 1, 1] = 7) ∧
    gather_nd_np ⟨[2, 2, 2], "float32", [0, 1, 2, 3, 4, 5, 6, 7]⟩ ⟨[1, 3], "int32", [1, 1, 5]⟩
      = some ⟨[1], "float32", [0]⟩ := by
  refine ⟨by decide, ⟨by decide, by decide⟩, by decide⟩

/-- C4: scatter-add accumulates duplicate coordinates instead of
overwriting: for any 1-D data `d` of length `n`, an in-bounds position
`i` and two updates `a`, `b` both aimed at `i`, the result is `d` with
position `i` holding `d[i] + a + b` (written in the order the loop
accumulates). -/
theorem tensor_scatter_add_sums_duplicates (n i : Nat) (d : List ℚ) (a b : ℚ)
    (hd : d.length = n) (hi : i < n) :
    tensor_scatter_add_np ⟨[n], "float32", d⟩ ⟨[2, 1], "int32", [(i : Int), (i : Int)]⟩
        ⟨[2], "float32", [a, b]⟩
      = some ⟨[n], "float32", d.set i (b + (a + d.getD i 0))⟩ := by
  have h2 : List.range 2 = [0, 1] := by decide
  have h1 : List.range 1 = [0] := by decide
  have hnn : (0 : Int) ≤ (i : Int) := Int.ofNat_nonneg i
  have hlt : (i : Int) < (n : Int) := Int.ofNat_lt.mpr hi
  unfold tensor_scatter_add_np
  simp only [listProd, strideElems, pydiv, List.foldl, List.drop, h2, h1]
  norm_num
  have hi2 : i < d.length := hd ▸ hi
  simp [hi, List.getElem?_set_eq_of_lt, hi2, List.set_set, List.getD_eq_getElem?_getD]

/-- Witness for C4 at the spec's concrete instance: data=[0],
indices=[[0],[0]], updates=[3,4] gives [7]. -/
theorem tensor_scatter_add_sums_duplicates_witness :
    tensor_scatter_add_np ⟨[1], "float32", [0]⟩ ⟨[2, 1], "int32", [0, 0]⟩
        ⟨[2], "float32", [3, 4]⟩
      = some ⟨[1], "float32", [7]⟩ := by
  have h := tensor_scatter_add_sums_duplicates 1 0 [0] 3 4 (by decide) (by decide)
  norm_num at h
  exact h

/-- C10: `gather_nd_np` always returns a float32 array — the output
buffer is allocated as `np.zeros(out_shape, np.float32)` — whatever the
dtype of the input data.  (Value rounding of the float32 conversion is
not modelled; values are carried exactly.) -/
theorem gather_nd_dtype_float32 (data : Tensor ℚ) (indices : Tensor Int) (t : Tensor ℚ)
    (h : gather_nd_np data indices = some t) : t.dtype = "float32" := by
  unfold gather_nd_np at h
  simp_all
  obtain ⟨-, -, -, h4⟩ := h
  rw [← h4]

/-- Witness for C10 on float64 data: the gathered row keeps its values
but the result dtype is float32. -/
theorem gather_nd_dtype_float32_witness :
    gather_nd_np ⟨[2, 2, 2], "float64", [0, 1, 2, 3, 4, 5, 6, 7]⟩ ⟨[1, 3], "int32", [1, 0, 1]⟩
      = some ⟨[1], "float32", [5]⟩ ∧
    (⟨[1], "float32", [5]⟩ : Tensor ℚ).dtype = "float32" :=
  ⟨by decide,
   gather_nd_dtype_float32 ⟨[2, 2, 2], "float64", [0, 1, 2, 3, 4, 5, 6, 7]⟩
     ⟨[1, 3], "int32", [1, 0, 1]⟩ ⟨[1], "float32", [5]⟩ (by decide)⟩

theorem getCell_setElemAt_ne (s : Store) (r1 r2 idx : Nat) (v : ℚ) (h : r1 ≠ r2) :
    getCell (setElemAt s r2 idx v) r1 = getCell s r1 := by
  unfold getCell setElemAt
  rw [List.getD_eq_getElem?_getD, List.getD_eq_getElem?_getD,
    List.getElem?_set_ne (fun he => h he.symm)]

theorem getCell_append_left (s : Store) (c : List ℚ) (r : Nat) (h : r < s.length) :
    getCell (s ++ [c]) r = getCell s r := by
  unfold getCell
  exact List.getD_append _ _ _ _ h

theorem getCell_ite_setElemAt_ne (c : Prop) [Decidable c] (st : Store) (n idx : Nat)
    (v : ℚ) (r : Nat) (h : r ≠ n) :
    getCell (if c then setElemAt st n idx v else st) r = getCell st r := by
  split
  · exact getCell_setElemAt_ne _ _ _ _ _ h
  · rfl

theorem foldl_getCell_eq {β : Type} (f : Store → β → Store) (l : List β) (s0 : Store) (r : Nat)
    (h : ∀ st x, getCell (f st x) r = getCell st r) :
    getCell (l.foldl f s0) r = getCell s0 r := by
  induction l generalizing s0 with
  | nil => rfl
  | cons x xs ih => rw [List.foldl_cons, ih, h]

/-- C9: neither kernel mutates its arguments.  For any heap and any
argument references valid in it, after `tensor_scatter_add_store` the
cells of `data`, `indices` and `updates` hold exactly their original
payloads and the result is a freshly allocated cell (reference
`s.length`); likewise `gather_nd_store` leaves `data` and `indices`
unchanged and returns a fresh cell. -/
theorem scatter_gather_no_mutation (s : Store) (d i u : NdRef)
    (hd : d.ref < s.length) (hi : i.ref < s.length) (hu : u.ref < s.length) :
    (getCell (tensor_scatter_add_store s d i u).1 d.ref = getCell s d.ref ∧
     getCell (tensor_scatter_add_store s d i u).1 i.ref = getCell s i.ref ∧
     getCell (tensor_scatter_add_store s d i u).1 u.ref = getCell s u.ref ∧
     (tensor_scatter_add_store s d i u).2.ref = s.length) ∧
    (getCell (gather_nd_store s d i).1 d.ref = getCell s d.ref ∧
     getCell (gather_nd_store s d i).1 i.ref = getCell s i.ref ∧
     (gather_nd_store s d i).2.ref = s.length) := by
  have key : ∀ r : Nat, r < s.length →
      (getCell (tensor_scatter_add_store s d i u).1 r = getCell s r ∧
       getCell (gather_nd_store s d i).1 r = getCell s r) := by
    intro r hr
    have hne : r ≠ s.length := Nat.ne_of_lt hr
    constructor
    · unfold tensor_scatter_add_store
      rw [foldl_getCell_eq]
      · exact getCell_append_left s _ r hr
      · intro st x
        rw [foldl_getCell_eq]
        intro st2 y
        dsimp only
        exact getCell_ite_setElemAt_ne _ _ _ _ _ _ hne
    · unfold gather_nd_store
      rw [foldl_getCell_eq]
      · rw [getCell_append_left _ _ r (by simpa using Nat.lt_succ_of_lt hr),
          getCell_append_left s _ r hr]
      · intro st x
        rw [foldl_getCell_eq]
        intro st2 y
        dsimp only
        exact getCell_ite_setElemAt_ne _ _ _ _ _ _ hne
  exact ⟨⟨(key d.ref hd).1, (key i.ref hi).1, (key u.ref hu).1, rfl⟩,
         (key d.ref hd).2, (key i.ref hi).2, rfl⟩

/-- Witness for C9 on a concrete three-cell heap. -/
theorem scatter_gather_no_mutation_witness :
    (getCell (tensor_scatter_add_store [[0], [0, 0], [3, 4]] ⟨0, [1], "float32"⟩
        ⟨1, [2, 1], "int32"⟩ ⟨2, [2], "float32"⟩).1 0
      = getCell [[0], [0, 0], [3, 4]] 0 ∧
     getCell (tensor_scatter_add_store [[0], [0, 0], [3, 4]] ⟨0, [1], "float32"⟩
        ⟨1, [2, 1], "int32"⟩ ⟨2, [2], "float32"⟩).1 1
      = getCell [[0], [0, 0], [3, 4]] 1 ∧
     getCell (tensor_scatter_add_store [[0], [0, 0], [3, 4]] ⟨0, [1], "float32"⟩
        ⟨1, [2, 1], "int32"⟩ ⟨2, [2], "float32"⟩).1 2
      = getCell [[0], [0, 0], [3, 4]] 2 ∧
     (tensor_scatter_add_store [[0], [0, 0], [3, 4]] ⟨0, [1], "float32"⟩
        ⟨1, [2, 1], "int32"⟩ ⟨2, [2], "float32"⟩).2.ref = 3) ∧
    (getCell (gather_nd_store [[0], [0, 0], [3, 4]] ⟨0, [1], "float32"⟩
        ⟨1, [2, 1], "int32"⟩).1 0 = getCell [[0], [0, 0], [3, 4]] 0 ∧
     getCell (gather_nd_store [[0], [0, 0], [3, 4]] ⟨0, [1], "float32"⟩
        ⟨1, [2, 1], "int32"⟩).1 1 = getCell [[0], [0, 0], [3, 4]] 1 ∧
     (gather_nd_store [[0], [0, 0], [3, 4]] ⟨0, [1], "float32"⟩
        ⟨1, [2, 1], "int32"⟩).2.ref = 3) :=
  scatter_gather_no_mutation [[0], [0, 0], [3, 4]] ⟨0, [1], "float32"⟩
    ⟨1, [2, 1], "int32"⟩ ⟨2, [2], "float32"⟩ (by decide) (by decide) (by decide)

theorem map_getD_range_self (l : List ℚ) :
    (List.range l.length).map (fun k => l[k]?.getD 0) = l := by
  apply List.ext_getElem
  · simp
  · intro k h1 h2
    simp [List.getElem?_eq_getElem h2]

theorem flatMap_singleton_map {α β : Type} (l : List α) (f : α → β) :
    (l.flatMap fun i => [f i]) = l.map f := by
  induction l with
  | nil => rfl
  | cons a t ih => simp [List.flatMap_cons, ih]

theorem allIdx_single (m : Nat) : allIdx [m] = (List.range m).map (fun i => [i]) := by
  simp [allIdx, flatMap_singleton_map]

theorem moveaxis_rank1 (dt : String) (l : List ℚ) :
    Tensor.moveaxisLast0 ⟨[l.length], dt, l⟩ = ⟨[l.length], dt, l⟩ := by
  unfold Tensor.moveaxisLast0 Tensor.transposeAx
  simp [allIdx_single, permuteIdxBack, Tensor.atIdx, flatIdx, listProd,
    show List.range 1 = [0] from rfl, List.map_map]
  simpa [Function.comp] using map_getD_range_self l

theorem reshape_move_reshape (R : List ℚ) (m : Nat) (hR : R.length = m) :
    ((⟨[1, m, 1], "float64", R⟩ : Tensor ℚ).reshape? [m]).bind
      (fun a => a.moveaxisLast0.reshape? [m, 1]) = some ⟨[m, 1], "float64", R⟩ := by
  subst hR
  simp only [Tensor.reshape?, listProd, List.foldl_cons, List.foldl_nil, one_mul, mul_one,
    eq_self_iff_true, if_true, Option.some_bind]
  rw [moveaxis_rank1]
  simp only [Tensor.reshape?, listProd, List.foldl_cons, List.foldl_nil, one_mul, mul_one,
    eq_self_iff_true, if_true]

/-- C6 counterexample: for the 2x2 CSR matrix with a single stored value
5 at (0, 0) and axis 1, the code returns the row sums with shape
(2, 1), while `toarray(csr).sum(axis=1)` has shape (2,) — the result is
not equal to the dense sum "including the shape". -/
theorem csr_reduce_sum_shape_counterexample :
    (csr_reduce_sum_np [0, 1, 1] [0] ⟨[1], "float32", [5]⟩ [2, 2] 1)
      ≠ some (npDenseSum1 (csrDense [0, 1, 1] [0] [5] 2 2)) ∧
    (csr_reduce_sum_np [0, 1, 1] [0] ⟨[1], "float32", [5]⟩ [2, 2] 1).map Tensor.shape
      = some [2, 1] ∧
    (npDenseSum1 (csrDense [0, 1, 1] [0] [5] 2 2)).shape = [2] := by
  refine ⟨by decide, by decide, by decide⟩

/-- C6 (amended): for an unbatched CSR matrix (1-D, nonempty `data`)
with 2-D declared shape and any axis congruent to 1 mod 2 (axis 1 or
-1), `csr_reduce_sum_np` returns exactly the values of
`toarray(csr).sum(axis=1)`, reshaped to `(shape[0], 1)` — an extra
trailing singleton axis relative to the dense sum. -/
theorem csr_reduce_sum_axis1 (indptr indices : List Nat) (vals : List ℚ) (m n : Nat)
    (axis : Int) (hv : vals ≠ []) (hax : axis % 2 = 1) :
    csr_reduce_sum_np indptr indices ⟨[vals.length], "float32", vals⟩ [m, n] axis
      = some ⟨[m, 1], "float64", (npDenseSum1 (csrDense indptr indices vals m n)).data⟩ := by
  have hlen : vals.length ≠ 0 := fun h => hv (List.eq_nil_of_length_eq_zero h)
  have hdiv : vals.length / vals.length = 1 := Nat.div_self (Nat.pos_of_ne_zero hlen)
  unfold csr_reduce_sum_np
  simp only [List.length_cons, List.length_nil, List.getD]
  norm_num [hax, hdiv]
  refine ⟨hv, ?_⟩
  rw [show List.range 1 = [0] from rfl]
  simp only [List.map_cons, List.map_nil, Nat.add_zero]
  rw [map_getD_range_self]
  have hR : ((List.range m).map (fun i =>
      ((List.range n).map (fun j => (csrDense indptr indices vals m n).atIdx [i, j])).sum)).length
      = m := by simp
  have hshape : (csrDense indptr indices vals m n).shape = [m, n] := rfl
  simp only [scipy_csr_sum, npDenseSum1, hshape, List.getD_cons_zero, List.getD_cons_succ,
    reduceIte, stack0, List.head?_cons, Option.map_some', Option.getD_some, List.length_cons,
    List.length_nil, List.flatMap_cons, List.flatMap_nil, List.append_nil]
  exact reshape_move_reshape _ m hR

/-- Witness for C6 (amended) at a concrete 2x3 CSR matrix with axis
-1. -/
theorem csr_reduce_sum_axis1_witness :
    csr_reduce_sum_np [0, 2, 3] [0, 2, 1] ⟨[3], "float32", [1, 2, 3]⟩ [2, 3] (-1)
      = some ⟨[2, 1], "float64",
          (npDenseSum1 (csrDense [0, 2, 3] [0, 2, 1] [1, 2, 3] 2 3)).data⟩ :=
  csr_reduce_sum_axis1 [0, 2, 3] [0, 2, 1] [1, 2, 3] 2 3 (-1) (by decide) (by decide)

/-- C8: `get_attr` returns the value of the first attribute entry whose
name matches the requested name (`List.find?` order), returns the empty
list when no entry matches, and in particular the first of two
duplicate names wins. -/
theorem get_attr_first_match (attrs : List AttrEntry) (t : String) :
    (get_attr attrs t = match attrs.find? (fun a => a.attr_name == t) with
      | some a => a.value
      | none => PyVal.vlist []) ∧
    (∀ (v w : PyVal) (rest : List AttrEntry),
      get_attr (⟨t, v⟩ :: ⟨t, w⟩ :: rest) t = v) := by
  constructor
  · induction attrs with
    | nil => rfl
    | cons a rest ih =>
      by_cases h : a.attr_name = t
      · simp [get_attr, List.find?, h]
      · have hb : (a.attr_name == t) = false := by simp [h]
        simp [get_attr, List.find?, h, hb, ih]
  · intro v w rest
    simp [get_attr]
